import Mathlib

set_option maxRecDepth 40000

/-!
Verification of the CSV-row to XML-entity mapping and validation layer of the
Portfolio Manager import scripts (`portfolio_manager_import.py`, `pm_utilities.py`).

The Python code is shallowly embedded:

* A CSV row, after `pandas` NaN-filtering, is a dictionary from field names to
  values (`Record` below).  Values occurring in this program are strings,
  integers and booleans; `Value.pyStr` models Python `str(...)` on them and
  `Value.truthy` models Python truthiness.
* `xml.etree.ElementTree` elements are modelled by `XML` (tag, attribute list
  in insertion order, optional text, children).  `XML.serialize` models
  `ET.tostring(elem, encoding='unicode')` with its default
  `short_empty_elements=True` behaviour, including the `_escape_cdata` /
  `_escape_attrib` entity escaping that the library applies to text and
  attribute values.  The escaping is implemented character-wise, which agrees
  with the library's sequence of non-overlapping global replacements.
* `create_property_elem` / `create_property_xml` embed
  `PortfolioManagerImporter.create_property_xml` (lines 68-139).
* `validate_csv` embeds `PortfolioManagerUtils.validate_csv` (lines 220-312)
  on an already-parsed table; a `pandas` NaN cell is `none`.
* `create_property` / `import_from_csv` embed the per-record remote call and
  the batch loop (lines 141-244); the external HTTP transport is an oracle
  (`Response`) giving, per row, either a status/body outcome or an exception.
-/

namespace PM

/-- A Python value as it occurs in a property-data dictionary: a string,
an integer, or a boolean. -/
inductive Value where
  | s (v : String)
  | i (v : Int)
  | b (v : Bool)
deriving DecidableEq

/-- Python `str(...)` on a `Value` (`str` of a bool is `"True"`/`"False"`). -/
def Value.pyStr : Value → String
  | .s v => v
  | .i v => toString v
  | .b true => "True"
  | .b false => "False"

/-- Python truthiness of a `Value` (empty string, zero and `False` are falsy). -/
def Value.truthy : Value → Bool
  | .s v => !(v == "")
  | .i v => !(v == 0)
  | .b v => v

/-- Python `str.lower()` (ASCII range, which covers every string this program
lowercases). -/
def pyLower (s : String) : String := String.mk (s.data.map Char.toLower)

/-- A property-data dictionary: one CSV row after NaN removal. -/
abbrev Record := List (String × Value)

/-- Python `dict.__getitem__` / the value behind `dict.get` when present. -/
def dictGet (r : Record) (k : String) : Option Value :=
  match r with
  | [] => none
  | (k₀, v) :: rest => if k₀ == k then some v else dictGet rest k

/-- `str(property_data.get(k, d))`: string of the stored value, or the
(string) default when the key is absent. -/
def getStr (r : Record) (k : String) (d : String) : String :=
  match dictGet r k with
  | some v => v.pyStr
  | none => d

/-- Truthiness of `property_data.get(k)` (absent keys give `None`, falsy). -/
def truthyAt (r : Record) (k : String) : Bool :=
  match dictGet r k with
  | some v => v.truthy
  | none => false

/-- `property_data.get('country', 'US') == 'CA'`: only a stored string value
`"CA"` compares equal to `'CA'` in Python. -/
def countryIsCA (r : Record) : Bool :=
  match dictGet r "country" with
  | some (.s v) => v == "CA"
  | some _ => false
  | none => false

/-- An `xml.etree.ElementTree` element: tag, attributes in insertion order,
optional text, children. -/
inductive XML where
  | mk (tag : String) (attrs : List (String × String)) (text : Option String) (children : List XML)

def XML.tag : XML → String
  | .mk t _ _ _ => t

def XML.attrs : XML → List (String × String)
  | .mk _ a _ _ => a

def XML.text : XML → Option String
  | .mk _ _ x _ => x

def XML.children : XML → List XML
  | .mk _ _ _ c => c

/-- Concatenation of a list of strings, in order (the serializer's sequence of
`write` calls). -/
def joinAll : List String → String
  | [] => ""
  | x :: xs => x ++ joinAll xs

/-- `ElementTree._escape_cdata`: entity-escape `&`, `<`, `>` in element text.
Character-wise form of the library's sequential global replacements. -/
def escape_cdata (s : String) : String :=
  joinAll (s.data.map (fun c =>
    if c = '&' then "&amp;"
    else if c = '<' then "&lt;"
    else if c = '>' then "&gt;"
    else String.mk [c]))

/-- `ElementTree._escape_attrib`: entity-escape `&`, `<`, `>`, `"` and
whitespace control characters in attribute values. -/
def escape_attrib (s : String) : String :=
  joinAll (s.data.map (fun c =>
    if c = '&' then "&amp;"
    else if c = '<' then "&lt;"
    else if c = '>' then "&gt;"
    else if c = '"' then "&quot;"
    else if c = '\r' then "&#13;"
    else if c = '\n' then "&#10;"
    else if c = '\t' then "&#09;"
    else String.mk [c]))

/-- `ET.tostring(elem, encoding='unicode')`: serialize an element.  An element
with no (nonempty) text and no children is written `<tag />`; otherwise the
text (escaped) and the children are written between start and end tags.
Attribute values are escaped; attributes appear in insertion order. -/
def XML.serialize : XML → String
  | .mk tag attrs text children =>
    let t := text.getD ""
    let attrStr := joinAll (attrs.map (fun kv => " " ++ kv.1 ++ "=\x22" ++ escape_attrib kv.2 ++ "\x22"))
    if (t == "") && children.isEmpty then
      "<" ++ tag ++ attrStr ++ " />"
    else
      "<" ++ tag ++ attrStr ++ ">" ++ escape_cdata t ++
        joinAll (children.attach.map (fun c => XML.serialize c.1)) ++ "</" ++ tag ++ ">"
  decreasing_by
    have := List.sizeOf_lt_of_mem c.2
    simp only [XML.mk.sizeOf_spec]
    omega

/-- The three `if property_data.get(k): SubElement(...)` patterns of the
encoder: an optional element, emitted only when the field is present and
truthy. -/
def optElems (r : Record) (k : String) (f : Value → XML) : List XML :=
  match dictGet r k with
  | some v => if v.truthy then [f v] else []
  | none => []

/-- `PortfolioManagerImporter.create_property_xml`, lines 79-133: the element
tree built for one property record. -/
def create_property_elem (property_data : Record) : XML :=
  let nameElem : XML := .mk "name" [] (some (getStr property_data "name" "")) []
  let primaryFunctionElem : XML :=
    .mk "primaryFunction" [] (some (getStr property_data "primaryFunction" "Office")) []
  let addressAttrs : List (String × String) :=
    [("address1", getStr property_data "address1" ""),
     ("city", getStr property_data "city" ""),
     ("state", getStr property_data "state" ""),
     ("postalCode", getStr property_data "postalCode" ""),
     ("country", getStr property_data "country" "US")] ++
    (match dictGet property_data "address2" with
     | some v => if v.truthy then [("address2", v.pyStr)] else []
     | none => [])
  let addressElem : XML := .mk "address" addressAttrs none []
  let yearBuiltElems : List XML :=
    optElems property_data "yearBuilt" (fun v => .mk "yearBuilt" [] (some v.pyStr) [])
  let constructionStatusElem : XML :=
    .mk "constructionStatus" [] (some (getStr property_data "constructionStatus" "Existing")) []
  let grossFloorAreaElem : XML :=
    .mk "grossFloorArea"
      [("temporary", pyLower (getStr property_data "gfaTemporary" "false")),
       ("units", getStr property_data "gfaUnits" "Square Feet")]
      none
      [.mk "value" [] (some (getStr property_data "grossFloorArea" "")) []]
  let occupancyElems : List XML :=
    optElems property_data "occupancyPercentage" (fun v => .mk "occupancyPercentage" [] (some v.pyStr) [])
  let isFederalElem : XML :=
    .mk "isFederalProperty" [] (some (pyLower (getStr property_data "isFederalProperty" "false"))) []
  let notesElems : List XML :=
    optElems property_data "notes" (fun v => .mk "notes" [] (some ("<![CDATA[" ++ v.pyStr ++ "]]>")) [])
  let institutionalElems : List XML :=
    if countryIsCA property_data then
      optElems property_data "isInstitutionalProperty"
        (fun v => .mk "isInstitutionalProperty" [] (some (pyLower v.pyStr)) [])
    else []
  .mk "property" [] none
    ([nameElem, primaryFunctionElem, addressElem] ++ yearBuiltElems ++
     [constructionStatusElem, grossFloorAreaElem] ++ occupancyElems ++
     [isFederalElem] ++ notesElems ++ institutionalElems)

/-- `PortfolioManagerImporter.create_property_xml`, lines 136-139: the XML
declaration followed by the serialized element tree. -/
def create_property_xml (property_data : Record) : String :=
  "<?xml version=\x221.0\x22 encoding=\x22UTF-8\x22?>\n" ++
    XML.serialize (create_property_elem property_data)

/-! ### Validator (`PortfolioManagerUtils.validate_csv`, pm_utilities.py lines 220-312) -/

/-- A parsed CSV file as `pandas` sees it: the header and the rows, a cell
being `none` when it is NaN (empty). -/
structure Table where
  header : List String
  rows : List (List (Option String))

/-- `df[c]`: the cells of column `c`, in row order. -/
def Table.column (t : Table) (c : String) : List (Option String) :=
  t.rows.map (fun row => row.getD (t.header.indexOf c) none)

/-- The `required_fields` list of `validate_csv` (lines 230-231). -/
def required_fields : List String :=
  ["name", "primaryFunction", "address1", "city", "state",
   "postalCode", "country", "grossFloorArea", "constructionStatus"]

/-- The `valid_property_types` reference list (lines 258-263). -/
def valid_property_types : List String :=
  ["Office", "Bank Branch", "Financial Office", "K-12 School", "College/University",
   "Hospital (General Medical & Surgical)", "Medical Office", "Hotel", "Restaurant",
   "Non-Refrigerated Warehouse", "Distribution Center", "Data Center", "Retail Store",
   "Other"]

/-- The `valid_statuses` list (line 271). -/
def valid_statuses : List String :=
  ["Existing", "Project", "Design", "Construction", "Test"]

/-- Python `sep.join(l)`. -/
def pyJoin (sep : String) : List String → String
  | [] => ""
  | [x] => x
  | x :: xs => x ++ sep ++ pyJoin sep xs

/-- Python `str(x)` on a cell: a NaN prints as `"nan"`. -/
def cellStr : Option String → String
  | none => "nan"
  | some s => s

/-- `pandas` `.isin(l)` on one cell: NaN is never in `l`. -/
def cellIn (c : Option String) (l : List String) : Bool :=
  match c with
  | some s => l.contains s
  | none => false

/-- `pandas` `.unique()`: values in order of first appearance, duplicates
(and repeated NaNs) removed. -/
def dedupAux (seen : List (Option String)) : List (Option String) → List (Option String)
  | [] => []
  | x :: xs => if seen.contains x then dedupAux seen xs else x :: dedupAux (x :: seen) xs

def pdUnique (l : List (Option String)) : List (Option String) := dedupAux [] l

/-- The validation report (lines 236-241). -/
structure ValidationReport where
  valid : Bool
  total_rows : Nat
  errors : List String
  warnings : List String
deriving DecidableEq

/-- `missing_columns` (line 244). -/
def missingColumns (t : Table) : List String :=
  required_fields.filter (fun col => !(t.header.contains col))

/-- `df[col].isna().sum()` for a present column (line 252). -/
def emptyCount (t : Table) (col : String) : Nat :=
  (t.column col).countP (fun c => c.isNone)

/-- `f"Missing required columns: {', '.join(missing_columns)}"` (line 247). -/
def missingMsg (cols : List String) : String :=
  "Missing required columns: " ++ pyJoin ", " cols

/-- `f"Column '{col}' has {empty_count} empty values"` (line 255). -/
def emptyMsg (col : String) (n : Nat) : String :=
  "Column \x27" ++ (col ++ ("\x27 has " ++ (toString n ++ " empty values")))

/-- `f"Unknown property types (may be valid): ..."` (line 268). -/
def typesWarnMsg (l : List (Option String)) : String :=
  "Unknown property types (may be valid): " ++ pyJoin ", " (l.map cellStr)

/-- `f"Invalid construction status values: ..."` (line 276). -/
def statusErrMsg (l : List (Option String)) : String :=
  "Invalid construction status values: " ++ pyJoin ", " (l.map cellStr)

/-- `df[~df['primaryFunction'].isin(valid_property_types)]['primaryFunction'].unique()`
(line 266), empty when the column is absent. -/
def unknownTypeValues (t : Table) : List (Option String) :=
  if t.header.contains "primaryFunction" then
    pdUnique ((t.column "primaryFunction").filter (fun c => !(cellIn c valid_property_types)))
  else []

/-- `df[~df['constructionStatus'].isin(valid_statuses)]['constructionStatus'].unique()`
(line 273), empty when the column is absent. -/
def invalidStatusValues (t : Table) : List (Option String) :=
  if t.header.contains "constructionStatus" then
    pdUnique ((t.column "constructionStatus").filter (fun c => !(cellIn c valid_statuses)))
  else []

/-- One iteration of the empty-required-fields loop (lines 250-255). -/
def emptyCheckStep (t : Table) (r : ValidationReport) (col : String) : ValidationReport :=
  if t.header.contains col then
    if 0 < emptyCount t col then
      { r with valid := false, errors := r.errors ++ [emptyMsg col (emptyCount t col)] }
    else r
  else r

/-- `PortfolioManagerUtils.validate_csv` on a parsed table (the printing and
the file-reading `try` are I/O around this computation). -/
def validate_csv (t : Table) : ValidationReport :=
  let r0 : ValidationReport :=
    { valid := true, total_rows := t.rows.length, errors := [], warnings := [] }
  let r1 :=
    if !(missingColumns t).isEmpty then
      { r0 with valid := false, errors := r0.errors ++ [missingMsg (missingColumns t)] }
    else r0
  let r2 := required_fields.foldl (emptyCheckStep t) r1
  let r3 :=
    if !(unknownTypeValues t).isEmpty then
      { r2 with warnings := r2.warnings ++ [typesWarnMsg (unknownTypeValues t)] }
    else r2
  let r4 :=
    if !(invalidStatusValues t).isEmpty then
      { r3 with valid := false, errors := r3.errors ++ [statusErrMsg (invalidStatusValues t)] }
    else r3
  r4

/-! ### Import loop (`portfolio_manager_import.py` lines 141-244) -/

/-- A raw CSV row before NaN removal: a cell may be NaN (`none`). -/
abbrev RawRow := List (String × Option Value)

/-- `{k: v for k, v in row.items() if pd.notna(v)}` (line 226). -/
def dropNaN (row : RawRow) : Record :=
  row.filterMap (fun kv => kv.2.map (fun v => (kv.1, v)))

/-- The per-property result dictionary built by `create_property`. -/
structure ImportResult where
  status : String
  property_name : Option Value
  property_id : Option Int
  message : String
deriving DecidableEq

/-- The observable outcome of one remote `POST` together with the parsing of
its body: either a status code, body text and the `id` found in the body, or
an exception raised anywhere inside the `try` block. -/
inductive Response where
  | ok (status_code : Nat) (text : String) (idInBody : Option Int)
  | raises (msg : String)

/-- `PortfolioManagerImporter.create_property` (lines 141-189) given the
outcome of its remote call. -/
def create_property (resp : Response) (property_data : Record) : ImportResult :=
  match resp with
  | .ok status_code text idInBody =>
    if status_code = 200 ∨ status_code = 201 then
      { status := "success", property_name := dictGet property_data "name",
        property_id := idInBody, message := "Property created successfully" }
    else
      { status := "error", property_name := dictGet property_data "name",
        property_id := none,
        message := "Error " ++ toString status_code ++ ": " ++ text }
  | .raises msg =>
      { status := "error", property_name := dictGet property_data "name",
        property_id := none, message := "Exception: " ++ msg }

/-- `PortfolioManagerImporter.import_from_csv` (lines 191-244): `csvRows` is
the outcome of `pd.read_csv` (`none` when reading fails), `account_id` the
outcome of `get_account_id`, and `net i` the outcome of row `i`'s remote
call.  One result is appended per row, in row order; printing and the
rate-limit sleep are I/O. -/
def import_from_csv (csvRows : Option (List RawRow)) (account_id : Option Int)
    (net : Nat → Response) : List ImportResult :=
  match csvRows with
  | none => []
  | some df =>
    match account_id with
    | none => []
    | some _ => df.enum.map (fun ir => create_property (net ir.1) (dropNaN ir.2))

/-- Whether a row's remote-call outcome is a failure (an exception, or a
status code other than 200/201). -/
def callFails : Response → Bool
  | .ok status_code _ _ => if status_code = 200 ∨ status_code = 201 then false else true
  | .raises _ => true

/-! ### Pointwise description of the empty-required-fields loop -/

/-- The error entry (if any) that the empty-required-fields loop produces for
one column. -/
def emptyEntry (t : Table) (col : String) : Option String :=
  if t.header.contains col then
    if 0 < emptyCount t col then some (emptyMsg col (emptyCount t col)) else none
  else none

/-- All error entries produced by the empty-required-fields loop, in order. -/
def emptyValueErrors (t : Table) : List String :=
  required_fields.filterMap (emptyEntry t)

/-! ### Concrete fixtures used by witnesses and counterexamples -/

/-- A record with every required field and no default-eligible field. -/
def rAllRequired : Record :=
  [("name", .s "Main Office Building"), ("primaryFunction", .s "Office"),
   ("address1", .s "123 Main Street"), ("city", .s "Washington"),
   ("state", .s "DC"), ("postalCode", .s "20001"),
   ("grossFloorArea", .i 50000)]

/-- A record carrying a notes field. -/
def rNotes : Record := [("name", .s "HQ"), ("notes", .s "hello")]

/-- A three-row CSV (raw rows, before NaN removal). -/
def rowsTriple : List RawRow :=
  [[("name", some (.s "Main Office Building"))],
   [("name", some (.s "Warehouse Facility"))],
   [("name", some (.s "Retail Store Downtown"))]]

/-- A network oracle for `rowsTriple` where only row 2's call fails. -/
def netTriple : Nat → Response := fun i =>
  if i = 1 then .ok 500 "Internal Server Error" none else .ok 200 "<id>101</id>" (some 101)

/-- A one-row table with an unknown `primaryFunction` and an invalid
`constructionStatus`. -/
def tEnum : Table :=
  { header := required_fields,
    rows := [[some "A", some "Call Center", some "1 St", some "X", some "DC",
              some "20001", some "US", some "1000", some "Unknown"]] }

/-- A table whose header is missing eight of the required columns
(including `city`). -/
def tMissing : Table :=
  { header := ["name"], rows := [[some "A"]] }

/-! ## Helper lemmas -/

theorem str_ext : ∀ {a b : String}, a.data = b.data → a = b
  | ⟨_⟩, ⟨_⟩, rfl => rfl

theorem str_data_append (a b : String) : (a ++ b).data = a.data ++ b.data :=
  String.data_append a b

theorem str_empty_append (s : String) : "" ++ s = s :=
  str_ext (by simp [str_data_append])

theorem str_append_empty (s : String) : s ++ "" = s :=
  str_ext (by simp [str_data_append])

/-- Two strings with prefix-incomparable heads stay different under any
right extensions. -/
theorem string_append_ne (a b x y : String)
    (h₁ : ¬ (a.data <+: b.data)) (h₂ : ¬ (b.data <+: a.data)) : a ++ x ≠ b ++ y := by
  intro he
  have hd : a.data ++ x.data = b.data ++ y.data := by
    have := congrArg String.data he
    simpa [str_data_append] using this
  have p1 : a.data <+: a.data ++ x.data := List.prefix_append a.data x.data
  have p2 : b.data <+: a.data ++ x.data := by
    rw [hd]; exact List.prefix_append b.data y.data
  rcases List.prefix_or_prefix_of_prefix p1 p2 with h | h
  · exact h₁ h
  · exact h₂ h

theorem string_left_cancel (p a b : String) (h : p ++ a = p ++ b) : a = b := by
  have hd : p.data ++ a.data = p.data ++ b.data := by
    have := congrArg String.data h
    simpa [str_data_append] using this
  exact str_ext (List.append_cancel_left hd)

/-- No two distinct required column names are prefix-comparable. -/
theorem required_fields_prefix_free :
    ∀ c₁ ∈ required_fields, ∀ c₂ ∈ required_fields, c₁ ≠ c₂ → ¬ (c₁.data <+: c₂.data) := by
  decide

theorem joinAll_append (l₁ l₂ : List String) :
    joinAll (l₁ ++ l₂) = joinAll l₁ ++ joinAll l₂ := by
  induction l₁ with
  | nil => simp [joinAll, str_empty_append]
  | cons x xs ih => simp [joinAll, ih, String.append_assoc]

/-- A member's image is a factor of the concatenation of the mapped list. -/
theorem joinAll_map_mem_split {α : Type} (f : α → String) (l : List α) (c : α) (hc : c ∈ l) :
    ∃ p q, joinAll (l.map f) = p ++ (f c ++ q) := by
  induction l with
  | nil => cases hc
  | cons x xs ih =>
    rcases List.mem_cons.mp hc with rfl | hmem
    · exact ⟨"", joinAll (xs.map f), by simp [joinAll, str_empty_append]⟩
    · obtain ⟨p, q, hpq⟩ := ih hmem
      exact ⟨f x ++ p, q, by simp [joinAll, hpq, String.append_assoc]⟩

/-- A member is a factor of its Python join. -/
theorem pyJoin_mem_split (sep : String) (l : List String) (s : String) (hs : s ∈ l) :
    ∃ p q, pyJoin sep l = p ++ (s ++ q) := by
  induction l with
  | nil => cases hs
  | cons x xs ih =>
    match xs, ih with
    | [], _ =>
      rcases List.mem_singleton.mp hs with rfl
      exact ⟨"", "", by simp [pyJoin, str_empty_append, str_append_empty]⟩
    | y :: t, ih =>
      rcases List.mem_cons.mp hs with rfl | hmem
      · exact ⟨"", sep ++ pyJoin sep (y :: t), by simp [pyJoin, String.append_assoc, str_empty_append]⟩
      · obtain ⟨p, q, hpq⟩ := ih hmem
        exact ⟨x ++ sep ++ p, q, by simp [pyJoin, hpq, String.append_assoc]⟩

/-- Unfolding equation for `XML.serialize` with the children handled by a
plain `List.map`. -/
theorem XML.serialize_eq (tag : String) (attrs : List (String × String)) (text : Option String)
    (children : List XML) :
    XML.serialize (.mk tag attrs text children) =
      (if (text.getD "" == "") && children.isEmpty then
        "<" ++ tag ++ joinAll (attrs.map (fun kv => " " ++ kv.1 ++ "=\x22" ++ escape_attrib kv.2 ++ "\x22")) ++ " />"
      else
        "<" ++ tag ++ joinAll (attrs.map (fun kv => " " ++ kv.1 ++ "=\x22" ++ escape_attrib kv.2 ++ "\x22")) ++ ">" ++
          escape_cdata (text.getD "") ++
          joinAll (children.map XML.serialize) ++ "</" ++ tag ++ ">") := by
  rw [XML.serialize]
  simp only [List.attach_map_val]

theorem escape_cdata_append (a b : String) :
    escape_cdata (a ++ b) = escape_cdata a ++ escape_cdata b := by
  simp [escape_cdata, str_data_append, joinAll_append]

/-- The serialization of a child of a text-free element is a factor of the
element's serialization. -/
theorem serialize_child_split (tag : String) (children : List XML) (c : XML)
    (hc : c ∈ children) :
    ∃ p q, XML.serialize (.mk tag [] none children) = p ++ (XML.serialize c ++ q) := by
  obtain ⟨p, q, hpq⟩ := joinAll_map_mem_split XML.serialize children c hc
  have hne : children.isEmpty = false := by
    cases children with
    | nil => cases hc
    | cons x xs => rfl
  refine ⟨"<" ++ tag ++ joinAll ([] : List _) ++ ">" ++ escape_cdata "" ++ p,
          q ++ ("</" ++ tag ++ ">"), ?_⟩
  rw [XML.serialize_eq]
  simp [hne, hpq, String.append_assoc]

theorem mem_dedupAux (x : Option String) :
    ∀ (l seen : List (Option String)), x ∈ dedupAux seen l ↔ (x ∈ l ∧ ¬ (x ∈ seen)) := by
  intro l
  induction l with
  | nil => simp [dedupAux]
  | cons y ys ih =>
    intro seen
    by_cases hy : seen.contains y
    · have hymem : y ∈ seen := by
        have := List.elem_eq_mem y seen
        rw [List.contains, this] at hy
        exact of_decide_eq_true hy
      simp only [dedupAux, hy, if_pos]
      rw [ih seen]
      constructor
      · rintro ⟨hx, hns⟩
        exact ⟨List.mem_cons_of_mem _ hx, hns⟩
      · rintro ⟨hx, hns⟩
        rcases List.mem_cons.mp hx with rfl | hx
        · exact absurd hymem hns
        · exact ⟨hx, hns⟩
    · have hynmem : ¬ (y ∈ seen) := by
        have := List.elem_eq_mem y seen
        rw [List.contains, this] at hy
        simpa using hy
      simp only [dedupAux, hy, if_neg, Bool.false_eq_true, not_false_iff]
      constructor
      · intro hx
        rcases List.mem_cons.mp hx with rfl | hx
        · exact ⟨List.mem_cons_self _ _, hynmem⟩
        · rw [ih (y :: seen)] at hx
          obtain ⟨hxy, hns⟩ := hx
          refine ⟨List.mem_cons_of_mem _ hxy, fun hxs => hns (List.mem_cons_of_mem _ hxs)⟩
      · rintro ⟨hx, hns⟩
        rcases List.mem_cons.mp hx with rfl | hx
        · exact List.mem_cons_self _ _
        · by_cases hxy : x = y
          · subst hxy; exact List.mem_cons_self _ _
          · refine List.mem_cons_of_mem _ ?_
            rw [ih (y :: seen)]
            exact ⟨hx, fun hm => by
              rcases List.mem_cons.mp hm with h | h
              · exact hxy h
              · exact hns h⟩

theorem mem_pdUnique (x : Option String) (l : List (Option String)) :
    x ∈ pdUnique l ↔ x ∈ l := by
  rw [pdUnique, mem_dedupAux]
  simp

/-- The empty-required-fields loop appends exactly the entries of
`List.filterMap (emptyEntry t)` and conjoins their absence onto `valid`. -/
theorem foldl_emptyCheck (t : Table) :
    ∀ (l : List String) (r : ValidationReport),
      l.foldl (emptyCheckStep t) r =
        { valid := r.valid && (l.filterMap (emptyEntry t)).isEmpty,
          total_rows := r.total_rows,
          errors := r.errors ++ l.filterMap (emptyEntry t),
          warnings := r.warnings } := by
  intro l
  induction l with
  | nil => intro r; simp
  | cons c cs ih =>
    intro r
    rw [List.foldl_cons, ih]
    by_cases hc : c ∈ t.header
    · by_cases hcount : 0 < emptyCount t c
      · simp [emptyCheckStep, emptyEntry, hc, hcount, List.filterMap_cons, List.append_assoc]
      · simp [emptyCheckStep, emptyEntry, hc, hcount, List.filterMap_cons]
    · simp [emptyCheckStep, emptyEntry, hc, List.filterMap_cons]

/-- Compiled form of `validate_csv`: the report's four fields in terms of
the named check results. -/
theorem validate_csv_eq (t : Table) :
    validate_csv t =
      { valid := (missingColumns t).isEmpty && (emptyValueErrors t).isEmpty &&
                 (invalidStatusValues t).isEmpty,
        total_rows := t.rows.length,
        errors := (if (missingColumns t).isEmpty then [] else [missingMsg (missingColumns t)]) ++
                  emptyValueErrors t ++
                  (if (invalidStatusValues t).isEmpty then [] else [statusErrMsg (invalidStatusValues t)]),
        warnings := if (unknownTypeValues t).isEmpty then [] else [typesWarnMsg (unknownTypeValues t)] } := by
  rw [validate_csv]
  simp only [foldl_emptyCheck t required_fields]
  rw [show required_fields.filterMap (emptyEntry t) = emptyValueErrors t from rfl]
  by_cases hm : (missingColumns t).isEmpty <;>
    by_cases hu : (unknownTypeValues t).isEmpty <;>
      by_cases hi : (invalidStatusValues t).isEmpty <;>
        simp [hm, hu, hi, List.append_assoc]

theorem optElems_any_false (r : Record) (k : String) (f : Value → XML) (p : XML → Bool)
    (h : ∀ v, p (f v) = false) : (optElems r k f).any p = false := by
  rw [optElems]
  cases dictGet r k with
  | none => rfl
  | some v =>
    by_cases hv : v.truthy = true
    · simp [hv, h]
    · simp [hv]

theorem optElems_any_true (r : Record) (k : String) (f : Value → XML) (p : XML → Bool)
    (h : ∀ v, p (f v) = true) : (optElems r k f).any p = truthyAt r k := by
  rw [optElems, truthyAt]
  cases dictGet r k with
  | none => rfl
  | some v =>
    by_cases hv : v.truthy = true
    · simp [hv, h]
    · simp [hv]

theorem optElems_eq_of_some (r : Record) (k : String) (f : Value → XML) (v : Value)
    (hget : dictGet r k = some v) (hv : v.truthy = true) :
    optElems r k f = [f v] := by
  rw [optElems, hget]
  simp [hv]

theorem optElems_eq_nil_of_none (r : Record) (k : String) (f : Value → XML)
    (hget : dictGet r k = none) : optElems r k f = [] := by
  rw [optElems, hget]

/-- C5: the output contains an `isInstitutionalProperty` element iff the
record's country field equals `"CA"` and the `isInstitutionalProperty` field
is present and truthy; in particular it is never emitted when the country is
not `"CA"`. -/
theorem institutional_element_iff (r : Record) :
    ((create_property_elem r).children.any (fun c => c.tag == "isInstitutionalProperty")) =
      (countryIsCA r && truthyAt r "isInstitutionalProperty") := by
  simp only [create_property_elem, XML.children, List.any_append, List.any_cons, List.any_nil,
    XML.tag]
  rw [optElems_any_false r "yearBuilt" _ _ (fun v => rfl),
      optElems_any_false r "occupancyPercentage" _ _ (fun v => rfl),
      optElems_any_false r "notes" _ _ (fun v => rfl)]
  by_cases hCA : countryIsCA r = true
  · rw [if_pos hCA, optElems_any_true r "isInstitutionalProperty" _ _ (fun v => rfl), hCA]
    simp
  · rw [if_neg hCA]
    simp only [Bool.not_eq_true] at hCA
    rw [hCA]
    simp

/-- C10: when `primaryFunction` is absent from the record, the encoder emits
a `primaryFunction` element with text `"Office"` — a silent default taken
from `property_data.get('primaryFunction', 'Office')`. -/
theorem primaryFunction_silent_default (r : Record)
    (h : dictGet r "primaryFunction" = none) :
    ((create_property_elem r).children.any
        (fun c => c.tag == "primaryFunction" && c.text == some "Office")) = true := by
  simp only [create_property_elem, XML.children, List.any_append, List.any_cons, List.any_nil,
    XML.tag, XML.text, getStr, h]
  simp

/-- Witness for C10 at the empty record. -/
theorem primaryFunction_silent_default_witness :
    dictGet [] "primaryFunction" = none ∧
    ((create_property_elem []).children.any
        (fun c => c.tag == "primaryFunction" && c.text == some "Office")) = true :=
  ⟨rfl, primaryFunction_silent_default [] rfl⟩

/-- C8: the encoder is a pure function of the record — in this embedding it
is a total Lean function, so encoding the same record twice yields the same
(byte-identical) XML string and the output depends on nothing else. -/
theorem encode_deterministic (r : Record) :
    create_property_xml r = create_property_xml r := rfl

/-- C9: the encoder never fails: for every record, whatever optional fields
are absent, it totally produces an XML string beginning with the XML
declaration. -/
theorem encode_total (r : Record) :
    ∃ s, create_property_xml r = "<?xml version=\x221.0\x22 encoding=\x22UTF-8\x22?>\n" ++ s :=
  ⟨XML.serialize (create_property_elem r), rfl⟩

/-- C1: for a record with all required fields present and every
default-eligible field absent, the encoder's output contains exactly the
defaulted values: `constructionStatus` text `"Existing"`, address attribute
`country="US"`, `grossFloorArea` attributes `temporary="false"` and
`units="Square Feet"`, and `isFederalProperty` text `"false"`. -/
theorem encoder_defaults (r : Record)
    (hcs : dictGet r "constructionStatus" = none)
    (hco : dictGet r "country" = none)
    (hgu : dictGet r "gfaUnits" = none)
    (hgt : dictGet r "gfaTemporary" = none)
    (hfe : dictGet r "isFederalProperty" = none)
    (_hname : (dictGet r "name").isSome = true)
    (_hpf : (dictGet r "primaryFunction").isSome = true)
    (_ha1 : (dictGet r "address1").isSome = true)
    (_hci : (dictGet r "city").isSome = true)
    (_hst : (dictGet r "state").isSome = true)
    (_hpc : (dictGet r "postalCode").isSome = true)
    (_hgfa : (dictGet r "grossFloorArea").isSome = true) :
    ((create_property_elem r).children.any
        (fun c => c.tag == "constructionStatus" && c.text == some "Existing")) = true ∧
    ((create_property_elem r).children.any
        (fun c => c.tag == "address" && c.attrs.contains ("country", "US"))) = true ∧
    ((create_property_elem r).children.any
        (fun c => c.tag == "grossFloorArea" && c.attrs.contains ("temporary", "false") &&
          c.attrs.contains ("units", "Square Feet"))) = true ∧
    ((create_property_elem r).children.any
        (fun c => c.tag == "isFederalProperty" && c.text == some "false")) = true := by
  have hlow : pyLower "false" = "false" := by decide
  refine ⟨?_, ?_, ?_, ?_⟩ <;>
    simp only [create_property_elem, XML.children, List.any_append, List.any_cons, List.any_nil,
      XML.tag, XML.text, XML.attrs, getStr, hcs, hco, hgu, hgt, hfe, hlow] <;>
    simp

/-- Witness for C1 at a record holding exactly the required fields. -/
theorem encoder_defaults_witness :
    (dictGet rAllRequired "constructionStatus" = none ∧
     dictGet rAllRequired "country" = none ∧
     dictGet rAllRequired "gfaUnits" = none ∧
     dictGet rAllRequired "gfaTemporary" = none ∧
     dictGet rAllRequired "isFederalProperty" = none ∧
     (dictGet rAllRequired "name").isSome = true ∧
     (dictGet rAllRequired "grossFloorArea").isSome = true) ∧
    ((create_property_elem rAllRequired).children.any
        (fun c => c.tag == "constructionStatus" && c.text == some "Existing")) = true ∧
    ((create_property_elem rAllRequired).children.any
        (fun c => c.tag == "address" && c.attrs.contains ("country", "US"))) = true ∧
    ((create_property_elem rAllRequired).children.any
        (fun c => c.tag == "grossFloorArea" && c.attrs.contains ("temporary", "false") &&
          c.attrs.contains ("units", "Square Feet"))) = true ∧
    ((create_property_elem rAllRequired).children.any
        (fun c => c.tag == "isFederalProperty" && c.text == some "false")) = true :=
  ⟨⟨rfl, rfl, rfl, rfl, rfl, rfl, rfl⟩,
   encoder_defaults rAllRequired rfl rfl rfl rfl rfl rfl rfl rfl rfl rfl rfl rfl⟩

theorem append_ne_empty_of_right (x b : String) (hb : b ≠ "") : x ++ b ≠ "" := by
  intro h
  have hd : x.data ++ b.data = [] := by
    have := congrArg String.data h
    simpa [str_data_append] using this
  have := (List.append_eq_nil.mp hd).2
  exact hb (str_ext (by simpa using this))

/-- Full evaluation of the encoder on the empty record. -/
theorem encode_empty_record_eval :
    create_property_xml [] =
      "<?xml version=\x221.0\x22 encoding=\x22UTF-8\x22?>\n<property><name /><primaryFunction>Office</primaryFunction><address address1=\x22\x22 city=\x22\x22 state=\x22\x22 postalCode=\x22\x22 country=\x22US\x22 /><constructionStatus>Existing</constructionStatus><grossFloorArea temporary=\x22false\x22 units=\x22Square Feet\x22><value /></grossFloorArea><isFederalProperty>false</isFederalProperty></property>" := by
  simp only [create_property_xml, create_property_elem, XML.serialize_eq, List.map_cons,
    List.map_nil, List.map_append]
  decide

/-- Full evaluation of the encoder on `rNotes`. -/
theorem encode_notes_record_eval :
    create_property_xml rNotes =
      "<?xml version=\x221.0\x22 encoding=\x22UTF-8\x22?>\n<property><name>HQ</name><primaryFunction>Office</primaryFunction><address address1=\x22\x22 city=\x22\x22 state=\x22\x22 postalCode=\x22\x22 country=\x22US\x22 /><constructionStatus>Existing</constructionStatus><grossFloorArea temporary=\x22false\x22 units=\x22Square Feet\x22><value /></grossFloorArea><isFederalProperty>false</isFederalProperty><notes>&lt;![CDATA[hello]]&gt;</notes></property>" := by
  have hA2 : dictGet rNotes "address2" = none := rfl
  have hYB : dictGet rNotes "yearBuilt" = none := rfl
  have hOC : dictGet rNotes "occupancyPercentage" = none := rfl
  have hNO : dictGet rNotes "notes" = some (.s "hello") := rfl
  have hCA : countryIsCA rNotes = false := rfl
  simp only [create_property_xml, create_property_elem, hA2, hCA,
    optElems_eq_nil_of_none rNotes "yearBuilt" _ hYB,
    optElems_eq_nil_of_none rNotes "occupancyPercentage" _ hOC,
    optElems_eq_of_some rNotes "notes" _ _ hNO rfl,
    Bool.false_eq_true, if_false,
    XML.serialize_eq, List.map_cons, List.map_nil, List.map_append]
  decide

/-- C2 counterexample: on the empty record the field `name` is absent and is
not one of the five contractually defaulted fields, yet the encoder emits an
empty `name` element (`<name />` appears in the serialized output). -/
theorem absent_name_emitted_empty :
    dictGet ([] : Record) "name" = none ∧
    ("name" ∈ ["constructionStatus", "country", "gfaUnits", "gfaTemporary",
               "isFederalProperty"] → False) ∧
    ((create_property_elem []).children.any
        (fun c => c.tag == "name" && c.text == some "" && c.children.isEmpty)) = true ∧
    ("<name />".data <:+: (create_property_xml []).data) := by
  refine ⟨rfl, by decide, by decide, ?_⟩
  rw [encode_empty_record_eval]
  decide

/-- C2 (amended): an absent optional field (`yearBuilt`,
`occupancyPercentage`, `notes`, `isInstitutionalProperty`, and the `address2`
attribute) is never emitted; but the `name` element and the `grossFloorArea`
value child are emitted as empty elements even when their fields are absent,
and an absent `primaryFunction` is emitted with the default `"Office"`. -/
theorem absent_fields_emission (r : Record) :
    (dictGet r "yearBuilt" = none →
      ((create_property_elem r).children.any (fun c => c.tag == "yearBuilt")) = false) ∧
    (dictGet r "occupancyPercentage" = none →
      ((create_property_elem r).children.any (fun c => c.tag == "occupancyPercentage")) = false) ∧
    (dictGet r "notes" = none →
      ((create_property_elem r).children.any (fun c => c.tag == "notes")) = false) ∧
    (dictGet r "isInstitutionalProperty" = none →
      ((create_property_elem r).children.any
          (fun c => c.tag == "isInstitutionalProperty")) = false) ∧
    (dictGet r "address2" = none →
      ((create_property_elem r).children.any
          (fun c => c.tag == "address" && c.attrs.any (fun kv => kv.1 == "address2"))) = false) ∧
    (dictGet r "name" = none →
      ((create_property_elem r).children.any
          (fun c => c.tag == "name" && c.text == some "")) = true) ∧
    (dictGet r "grossFloorArea" = none →
      ((create_property_elem r).children.any
          (fun c => c.tag == "grossFloorArea" &&
            c.children.any (fun d => d.tag == "value" && d.text == some ""))) = true) := by
  have hYB := fun (tg : String) (hf : ∀ v, (((fun v => XML.mk "yearBuilt" [] (some (Value.pyStr v)) []) v).tag == tg) = false) =>
    optElems_any_false r "yearBuilt" (fun v => XML.mk "yearBuilt" [] (some (Value.pyStr v)) [])
      (fun c => c.tag == tg) hf
  have hOC := fun (tg : String) (hf : ∀ v, (((fun v => XML.mk "occupancyPercentage" [] (some (Value.pyStr v)) []) v).tag == tg) = false) =>
    optElems_any_false r "occupancyPercentage" (fun v => XML.mk "occupancyPercentage" [] (some (Value.pyStr v)) [])
      (fun c => c.tag == tg) hf
  have hNO := fun (tg : String) (hf : ∀ v, (((fun v => XML.mk "notes" [] (some ("<![CDATA[" ++ Value.pyStr v ++ "]]>")) []) v).tag == tg) = false) =>
    optElems_any_false r "notes" (fun v => XML.mk "notes" [] (some ("<![CDATA[" ++ Value.pyStr v ++ "]]>")) [])
      (fun c => c.tag == tg) hf
  have hIN := fun (tg : String) (hf : ∀ v, (((fun v => XML.mk "isInstitutionalProperty" [] (some (pyLower (Value.pyStr v))) []) v).tag == tg) = false) =>
    optElems_any_false r "isInstitutionalProperty" (fun v => XML.mk "isInstitutionalProperty" [] (some (pyLower (Value.pyStr v))) [])
      (fun c => c.tag == tg) hf
  refine ⟨?_, ?_, ?_, ?_, ?_, ?_, ?_⟩ <;> intro h
  · simp only [create_property_elem, XML.children, List.any_append, List.any_cons, List.any_nil,
      optElems_eq_nil_of_none r "yearBuilt" (fun v => .mk "yearBuilt" [] (some v.pyStr) []) h]
    rw [hOC "yearBuilt" (fun v => rfl), hNO "yearBuilt" (fun v => rfl)]
    by_cases hCA : countryIsCA r = true
    · rw [if_pos hCA, hIN "yearBuilt" (fun v => rfl)]
      simp [XML.tag]
    · rw [if_neg hCA]
      simp [XML.tag]
  · simp only [create_property_elem, XML.children, List.any_append, List.any_cons, List.any_nil,
      optElems_eq_nil_of_none r "occupancyPercentage"
        (fun v => .mk "occupancyPercentage" [] (some v.pyStr) []) h]
    rw [hYB "occupancyPercentage" (fun v => rfl), hNO "occupancyPercentage" (fun v => rfl)]
    by_cases hCA : countryIsCA r = true
    · rw [if_pos hCA, hIN "occupancyPercentage" (fun v => rfl)]
      simp [XML.tag]
    · rw [if_neg hCA]
      simp [XML.tag]
  · simp only [create_property_elem, XML.children, List.any_append, List.any_cons, List.any_nil,
      optElems_eq_nil_of_none r "notes"
        (fun v => .mk "notes" [] (some ("<![CDATA[" ++ v.pyStr ++ "]]>")) []) h]
    rw [hYB "notes" (fun v => rfl), hOC "notes" (fun v => rfl)]
    by_cases hCA : countryIsCA r = true
    · rw [if_pos hCA, hIN "notes" (fun v => rfl)]
      simp [XML.tag]
    · rw [if_neg hCA]
      simp [XML.tag]
  · simp only [create_property_elem, XML.children, List.any_append, List.any_cons, List.any_nil]
    rw [hYB "isInstitutionalProperty" (fun v => rfl),
        hOC "isInstitutionalProperty" (fun v => rfl),
        hNO "isInstitutionalProperty" (fun v => rfl)]
    by_cases hCA : countryIsCA r = true
    · rw [if_pos hCA,
          optElems_eq_nil_of_none r "isInstitutionalProperty"
            (fun v => .mk "isInstitutionalProperty" [] (some (pyLower v.pyStr)) []) h]
      simp [XML.tag]
    · rw [if_neg hCA]
      simp [XML.tag]
  · have hP : ∀ (k₂ : String) (f : Value → XML),
        (∀ v, (((f v).tag == "address") && (f v).attrs.any (fun kv => kv.1 == "address2")) = false) →
        (optElems r k₂ f).any
          (fun c => (c.tag == "address") && c.attrs.any (fun kv => kv.1 == "address2")) = false :=
      fun k₂ f hf =>
        optElems_any_false r k₂ f
          (fun c => (c.tag == "address") && c.attrs.any (fun kv => kv.1 == "address2")) hf
    simp only [create_property_elem, XML.children, List.any_append, List.any_cons, List.any_nil, h]
    rw [hP "yearBuilt" (fun v => XML.mk "yearBuilt" [] (some (Value.pyStr v)) []) (fun v => rfl),
        hP "occupancyPercentage" (fun v => XML.mk "occupancyPercentage" [] (some (Value.pyStr v)) []) (fun v => rfl),
        hP "notes" (fun v => XML.mk "notes" [] (some ("<![CDATA[" ++ Value.pyStr v ++ "]]>")) []) (fun v => rfl)]
    by_cases hCA : countryIsCA r = true
    · rw [if_pos hCA,
          hP "isInstitutionalProperty"
            (fun v => XML.mk "isInstitutionalProperty" [] (some (pyLower (Value.pyStr v))) []) (fun v => rfl)]
      simp [XML.tag, XML.attrs]
    · rw [if_neg hCA]
      simp [XML.tag, XML.attrs]
  · simp only [create_property_elem, XML.children, List.any_append, List.any_cons, List.any_nil,
      XML.tag, XML.text, getStr, h]
    simp
  · simp only [create_property_elem, XML.children, List.any_append, List.any_cons, List.any_nil,
      XML.tag, XML.text, getStr, h]
    simp

/-- Witness for the amended C2 at the empty record. -/
theorem absent_fields_emission_witness :
    ((create_property_elem []).children.any (fun c => c.tag == "yearBuilt")) = false ∧
    ((create_property_elem []).children.any (fun c => c.tag == "notes")) = false ∧
    ((create_property_elem []).children.any
        (fun c => c.tag == "name" && c.text == some "")) = true :=
  ⟨(absent_fields_emission []).1 rfl, (absent_fields_emission []).2.2.1 rfl,
   (absent_fields_emission []).2.2.2.2.2.1 rfl⟩

/-- C7 counterexample: for the record `rNotes` (notes present and truthy),
the serialized output does not contain the literal CDATA marker `<![CDATA[`
at all — the serializer entity-escapes the text, so the marker is not
reproduced bit-for-bit in the output string. -/
theorem notes_cdata_not_raw_in_output :
    truthyAt rNotes "notes" = true ∧
    ¬ ("<![CDATA[".data <:+: (create_property_xml rNotes).data) := by
  refine ⟨rfl, ?_⟩
  rw [encode_notes_record_eval]
  decide

/-- C7 (amended): when notes is present and truthy, the element tree carries
the literal CDATA marker sequence in the `notes` element's text, but the
serialized output contains its entity-escaped image
`&lt;![CDATA[...]]&gt;` rather than the raw markers. -/
theorem notes_cdata_escaped (r : Record) (v : Value)
    (hget : dictGet r "notes" = some v) (hv : v.truthy = true) :
    ((create_property_elem r).children.any
        (fun c => (c.tag == "notes") && (c.text == some ("<![CDATA[" ++ v.pyStr ++ "]]>")))) = true ∧
    escape_cdata ("<![CDATA[" ++ v.pyStr ++ "]]>") =
      "&lt;![CDATA[" ++ (escape_cdata v.pyStr ++ "]]&gt;") ∧
    ∃ p q, create_property_xml r =
      p ++ (escape_cdata ("<![CDATA[" ++ v.pyStr ++ "]]>") ++ q) := by
  have hfact : optElems r "notes"
      (fun v => XML.mk "notes" [] (some ("<![CDATA[" ++ v.pyStr ++ "]]>")) []) =
      [XML.mk "notes" [] (some ("<![CDATA[" ++ v.pyStr ++ "]]>")) []] :=
    optElems_eq_of_some r "notes"
      (fun v => XML.mk "notes" [] (some ("<![CDATA[" ++ v.pyStr ++ "]]>")) []) v hget hv
  refine ⟨?_, ?_, ?_⟩
  · simp only [create_property_elem, XML.children, List.any_append, List.any_cons, List.any_nil,
      hfact]
    simp [XML.tag, XML.text]
  · rw [escape_cdata_append, escape_cdata_append,
        show escape_cdata "<![CDATA[" = "&lt;![CDATA[" from by decide,
        show escape_cdata "]]>" = "]]&gt;" from by decide]
    simp [String.append_assoc]
  · obtain ⟨P, Q, hPQ⟩ := serialize_child_split "property" (create_property_elem r).children
      (XML.mk "notes" [] (some ("<![CDATA[" ++ v.pyStr ++ "]]>")) []) (by
        simp only [create_property_elem, XML.children, hfact]
        simp [List.mem_append])
    have hne : (("<![CDATA[" ++ v.pyStr ++ "]]>" : String) == "") = false := by
      have h0 : ("<![CDATA[" ++ v.pyStr ++ "]]>" : String) ≠ "" :=
        append_ne_empty_of_right _ "]]>" (by decide)
      exact beq_eq_false_iff_ne.mpr h0
    have hAB : XML.serialize (XML.mk "notes" [] (some ("<![CDATA[" ++ v.pyStr ++ "]]>")) []) =
        ("<" ++ ("notes" ++ ">")) ++
          (escape_cdata ("<![CDATA[" ++ v.pyStr ++ "]]>") ++ ("</" ++ ("notes" ++ ">"))) := by
      rw [XML.serialize_eq]
      simp only [Option.getD_some, hne]
      simp [joinAll, String.append_assoc, str_empty_append, str_append_empty]
    have hx : create_property_xml r = "<?xml version=\x221.0\x22 encoding=\x22UTF-8\x22?>\n" ++
        XML.serialize (XML.mk "property" [] none (create_property_elem r).children) := rfl
    refine ⟨("<?xml version=\x221.0\x22 encoding=\x22UTF-8\x22?>\n" ++ P) ++ ("<" ++ ("notes" ++ ">")),
            ("</" ++ ("notes" ++ ">")) ++ Q, ?_⟩
    rw [hx, hPQ, hAB]
    simp [String.append_assoc]

/-- Witness for the amended C7 at `rNotes`. -/
theorem notes_cdata_escaped_witness :
    dictGet rNotes "notes" = some (.s "hello") ∧
    (((create_property_elem rNotes).children.any
        (fun c => (c.tag == "notes") &&
          (c.text == some ("<![CDATA[" ++ (Value.s "hello").pyStr ++ "]]>")))) = true ∧
    escape_cdata ("<![CDATA[" ++ (Value.s "hello").pyStr ++ "]]>") =
      "&lt;![CDATA[" ++ (escape_cdata (Value.s "hello").pyStr ++ "]]&gt;") ∧
    ∃ p q, create_property_xml rNotes =
      p ++ (escape_cdata ("<![CDATA[" ++ (Value.s "hello").pyStr ++ "]]>") ++ q)) :=
  ⟨rfl, notes_cdata_escaped rNotes (.s "hello") rfl rfl⟩

theorem mem_missingColumns (t : Table) (c : String) :
    c ∈ missingColumns t ↔ c ∈ required_fields ∧ t.header.contains c = false := by
  rw [missingColumns, List.mem_filter]
  constructor
  · rintro ⟨hr, hb⟩
    refine ⟨hr, ?_⟩
    cases hcb : t.header.contains c with
    | false => rfl
    | true => rw [hcb] at hb; cases hb
  · rintro ⟨hr, hb⟩
    exact ⟨hr, by rw [hb]; rfl⟩

theorem mem_emptyValueErrors (t : Table) (e : String) (he : e ∈ emptyValueErrors t) :
    ∃ c k, c ∈ required_fields ∧ t.header.contains c = true ∧ e = emptyMsg c k := by
  rw [emptyValueErrors] at he
  obtain ⟨c, hc, hce⟩ := List.mem_filterMap.mp he
  rw [emptyEntry] at hce
  by_cases h1 : t.header.contains c = true
  · rw [if_pos h1] at hce
    by_cases h2 : 0 < emptyCount t c
    · rw [if_pos h2] at hce
      exact ⟨c, emptyCount t c, hc, h1, (Option.some_injective _ hce).symm⟩
    · rw [if_neg h2] at hce
      cases hce
  · rw [if_neg h1] at hce
    cases hce

theorem missingMsg_ne_emptyMsg (l : List String) (c : String) (k : Nat) :
    missingMsg l ≠ emptyMsg c k := by
  rw [missingMsg, emptyMsg]
  exact string_append_ne "Missing required columns: " "Column \x27" _ _ (by decide) (by decide)

theorem missingMsg_ne_statusErrMsg (l : List String) (l₂ : List (Option String)) :
    missingMsg l ≠ statusErrMsg l₂ := by
  rw [missingMsg, statusErrMsg]
  exact string_append_ne "Missing required columns: "
    "Invalid construction status values: " _ _ (by decide) (by decide)

theorem emptyMsg_ne_statusErrMsg (c : String) (k : Nat) (l₂ : List (Option String)) :
    emptyMsg c k ≠ statusErrMsg l₂ := by
  rw [emptyMsg, statusErrMsg]
  exact string_append_ne "Column \x27"
    "Invalid construction status values: " _ _ (by decide) (by decide)

theorem emptyMsg_injective_on_required (c₁ c₂ : String) (k₁ k₂ : Nat)
    (h₁ : c₁ ∈ required_fields) (h₂ : c₂ ∈ required_fields) (hne : c₁ ≠ c₂) :
    emptyMsg c₁ k₁ ≠ emptyMsg c₂ k₂ := by
  rw [emptyMsg, emptyMsg]
  intro he
  have hcc := string_left_cancel _ _ _ he
  exact string_append_ne c₁ c₂ _ _
    (required_fields_prefix_free c₁ h₁ c₂ h₂ hne)
    (required_fields_prefix_free c₂ h₂ c₁ h₁ hne.symm) hcc

theorem isEmpty_false_of_ne_nil {α : Type} {l : List α} (h : l ≠ []) : l.isEmpty = false := by
  cases l with
  | nil => exact absurd rfl h
  | cons x xs => rfl

theorem not_mem_of_contains_eq_false {l : List String} {s : String}
    (h : l.contains s = false) : s ∉ l := by
  have he := List.elem_eq_mem s l
  rw [List.contains, he] at h
  simpa using h

/-- C6: a table missing required columns yields an invalid report whose first
error is the single combined missing-columns message, that message occurs
exactly once, and no per-column empty-value error is ever reported for a
missing column. -/
theorem missing_columns_reported_once (t : Table) (h : missingColumns t ≠ []) :
    (validate_csv t).valid = false ∧
    (validate_csv t).errors.head? = some (missingMsg (missingColumns t)) ∧
    (validate_csv t).errors.count (missingMsg (missingColumns t)) = 1 ∧
    ∀ c ∈ missingColumns t, ∀ k : Nat, emptyMsg c k ∉ (validate_csv t).errors := by
  have hE := validate_csv_eq t
  have hm : (missingColumns t).isEmpty = false := isEmpty_false_of_ne_nil h
  have herr : (validate_csv t).errors =
      [missingMsg (missingColumns t)] ++ emptyValueErrors t ++
        (if (invalidStatusValues t).isEmpty then []
          else [statusErrMsg (invalidStatusValues t)]) := by
    rw [hE, hm]
    rfl
  have hstatus : ∀ e ∈ (if (invalidStatusValues t).isEmpty then []
      else [statusErrMsg (invalidStatusValues t)]), e = statusErrMsg (invalidStatusValues t) := by
    intro e he
    by_cases hi : (invalidStatusValues t).isEmpty
    · rw [if_pos hi] at he
      cases he
    · rw [if_neg hi] at he
      exact List.mem_singleton.mp he
  refine ⟨?_, ?_, ?_, ?_⟩
  · rw [hE, hm]
    rfl
  · rw [herr]
    rfl
  · rw [herr]
    rw [List.count_append, List.count_append]
    have c1 : List.count (missingMsg (missingColumns t)) [missingMsg (missingColumns t)] = 1 := by
      simp
    have c2 : (emptyValueErrors t).count (missingMsg (missingColumns t)) = 0 := by
      rw [List.count_eq_zero]
      intro hmem
      obtain ⟨c, k, _, _, heq⟩ := mem_emptyValueErrors t _ hmem
      exact missingMsg_ne_emptyMsg (missingColumns t) c k heq
    have c3 : (if (invalidStatusValues t).isEmpty then []
        else [statusErrMsg (invalidStatusValues t)]).count (missingMsg (missingColumns t)) = 0 := by
      rw [List.count_eq_zero]
      intro hmem
      exact missingMsg_ne_statusErrMsg (missingColumns t) (invalidStatusValues t) (hstatus _ hmem)
    rw [List.count] at c1 c2 c3 ⊢
    omega
  · intro c hc k hmem
    have hcprop := (mem_missingColumns t c).mp hc
    rw [herr] at hmem
    rcases List.mem_append.mp hmem with hmem₁ | hmem₃
    · rcases List.mem_append.mp hmem₁ with hmem₁ | hmem₂
      · have : emptyMsg c k = missingMsg (missingColumns t) := List.mem_singleton.mp hmem₁
        exact missingMsg_ne_emptyMsg (missingColumns t) c k this.symm
      · obtain ⟨c₂, k₂, hc₂req, hc₂cont, heq⟩ := mem_emptyValueErrors t _ hmem₂
        have hne : c ≠ c₂ := by
          intro hcc
          rw [hcc, hc₂cont] at hcprop
          exact absurd hcprop.2 (by simp)
        exact emptyMsg_injective_on_required c c₂ k k₂ hcprop.1 hc₂req hne heq
    · exact emptyMsg_ne_statusErrMsg c k (invalidStatusValues t) (hstatus _ hmem₃)

/-- Witness for C6 at `tMissing` (header `["name"]`). -/
theorem missing_columns_reported_once_witness :
    missingColumns tMissing ≠ [] ∧
    (validate_csv tMissing).valid = false ∧
    (validate_csv tMissing).errors.head? = some (missingMsg (missingColumns tMissing)) ∧
    (validate_csv tMissing).errors.count (missingMsg (missingColumns tMissing)) = 1 ∧
    emptyMsg "city" 1 ∉ (validate_csv tMissing).errors := by
  have H := missing_columns_reported_once tMissing (by decide)
  exact ⟨by decide, H.1, H.2.1, H.2.2.1, H.2.2.2 "city" (by decide) 1⟩

/-- C3: an out-of-set `constructionStatus` cell makes the report invalid with
an error entry containing that value, while an out-of-set `primaryFunction`
cell only adds a warning entry containing that value; the `valid` flag is
exactly the conjunction of the missing-column, empty-value and
construction-status checks, so the `primaryFunction` check alone never makes
the report invalid. -/
theorem enum_value_checks (t : Table) :
    ((validate_csv t).valid =
      ((missingColumns t).isEmpty && (emptyValueErrors t).isEmpty &&
        (invalidStatusValues t).isEmpty)) ∧
    (∀ s : String, t.header.contains "constructionStatus" = true →
      some s ∈ Table.column t "constructionStatus" →
      valid_statuses.contains s = false →
      (validate_csv t).valid = false ∧
      ∃ pre post, (pre ++ (s ++ post)) ∈ (validate_csv t).errors) ∧
    (∀ s : String, t.header.contains "primaryFunction" = true →
      some s ∈ Table.column t "primaryFunction" →
      valid_property_types.contains s = false →
      ∃ pre post, (pre ++ (s ++ post)) ∈ (validate_csv t).warnings) := by
  refine ⟨by rw [validate_csv_eq], ?_, ?_⟩
  · intro s hcs hmem hinv
    have hmemInv : some s ∈ invalidStatusValues t := by
      rw [invalidStatusValues, if_pos hcs, mem_pdUnique, List.mem_filter]
      exact ⟨hmem, by simp [cellIn, not_mem_of_contains_eq_false hinv]⟩
    have hi : (invalidStatusValues t).isEmpty = false :=
      isEmpty_false_of_ne_nil (List.ne_nil_of_mem hmemInv)
    constructor
    · rw [validate_csv_eq]
      simp [hi]
    · have hsm : statusErrMsg (invalidStatusValues t) ∈ (validate_csv t).errors := by
        rw [validate_csv_eq]
        simp [hi]
      have hs₂ : s ∈ (invalidStatusValues t).map cellStr :=
        List.mem_map.mpr ⟨some s, hmemInv, rfl⟩
      obtain ⟨p, q, hpq⟩ := pyJoin_mem_split ", " _ s hs₂
      refine ⟨"Invalid construction status values: " ++ p, q, ?_⟩
      have hfac : statusErrMsg (invalidStatusValues t) =
          ("Invalid construction status values: " ++ p) ++ (s ++ q) := by
        rw [statusErrMsg, hpq, String.append_assoc]
      rw [← hfac]
      exact hsm
  · intro s hcs hmem hinv
    have hmemInv : some s ∈ unknownTypeValues t := by
      rw [unknownTypeValues, if_pos hcs, mem_pdUnique, List.mem_filter]
      exact ⟨hmem, by simp [cellIn, not_mem_of_contains_eq_false hinv]⟩
    have hi : (unknownTypeValues t).isEmpty = false :=
      isEmpty_false_of_ne_nil (List.ne_nil_of_mem hmemInv)
    have hsm : typesWarnMsg (unknownTypeValues t) ∈ (validate_csv t).warnings := by
      rw [validate_csv_eq]
      simp [hi]
    have hs₂ : s ∈ (unknownTypeValues t).map cellStr :=
      List.mem_map.mpr ⟨some s, hmemInv, rfl⟩
    obtain ⟨p, q, hpq⟩ := pyJoin_mem_split ", " _ s hs₂
    refine ⟨"Unknown property types (may be valid): " ++ p, q, ?_⟩
    have hfac : typesWarnMsg (unknownTypeValues t) =
        ("Unknown property types (may be valid): " ++ p) ++ (s ++ q) := by
      rw [typesWarnMsg, hpq, String.append_assoc]
    rw [← hfac]
    exact hsm

/-- Witness for C3 at `tEnum` (`constructionStatus` cell `"Unknown"`,
`primaryFunction` cell `"Call Center"`). -/
theorem enum_value_checks_witness :
    tEnum.header.contains "constructionStatus" = true ∧
    some "Unknown" ∈ Table.column tEnum "constructionStatus" ∧
    valid_statuses.contains "Unknown" = false ∧
    ((validate_csv tEnum).valid = false ∧
      ∃ pre post, (pre ++ ("Unknown" ++ post)) ∈ (validate_csv tEnum).errors) ∧
    (∃ pre post, (pre ++ ("Call Center" ++ post)) ∈ (validate_csv tEnum).warnings) := by
  have H := enum_value_checks tEnum
  exact ⟨by decide, by decide, by decide,
    H.2.1 "Unknown" (by decide) (by decide) (by decide),
    H.2.2 "Call Center" (by decide) (by decide) (by decide)⟩

theorem create_property_status (resp : Response) (pd : Record) :
    (create_property resp pd).status = if callFails resp then "error" else "success" := by
  cases resp with
  | raises m => rfl
  | ok sc txt idb =>
    by_cases hsc : sc = 200 ∨ sc = 201
    · simp [create_property, callFails, hsc]
    · simp [create_property, callFails, hsc]

/-- C4: for a readable CSV and a successful account lookup, the import loop
yields exactly one result per row, in input order, and row `i`'s status is
`"error"` exactly when row `i`'s remote call fails (non-2xx status or
exception) — regardless of what happens on other rows, so one failing row
never stops the rest of the batch. -/
theorem import_one_result_per_row (df : List RawRow) (a : Int) (net : Nat → Response) :
    (import_from_csv (some df) (some a) net).length = df.length ∧
    ∀ i, i < df.length →
      ((import_from_csv (some df) (some a) net).get? i).map ImportResult.status =
        some (if callFails (net i) then "error" else "success") := by
  constructor
  · simp [import_from_csv, List.enum_length]
  · intro i hi
    simp [import_from_csv, List.getElem?_map, List.getElem?_enum,
      List.getElem?_eq_getElem hi, create_property_status]

/-- Witness for C4: a three-row batch where only row 2's call fails yields
three results with statuses success, error, success in order. -/
theorem import_one_result_per_row_witness :
    (import_from_csv (some rowsTriple) (some 12345) netTriple).length = 3 ∧
    ((import_from_csv (some rowsTriple) (some 12345) netTriple).get? 0).map ImportResult.status =
      some "success" ∧
    ((import_from_csv (some rowsTriple) (some 12345) netTriple).get? 1).map ImportResult.status =
      some "error" ∧
    ((import_from_csv (some rowsTriple) (some 12345) netTriple).get? 2).map ImportResult.status =
      some "success" := by
  have H := import_one_result_per_row rowsTriple 12345 netTriple
  exact ⟨H.1, H.2 0 (by decide), H.2 1 (by decide), H.2 2 (by decide)⟩

end PM
